import Mathlib

/-!
Verification development for the SQLobj relational data-mapping layer
(`src/mysql.py`).  Python strings are modelled as lists of characters
(`Str`), Python dicts (insertion ordered) as association lists, Python
exceptions as `Except`, and the external database session as an explicit
log of executed SQL statements.
-/

namespace SQLobj

/-- Python strings are modelled as lists of characters. -/
abbrev Str := List Char

/-- Shorthand turning a Lean string literal into the character-list model. -/
def lc (s : String) : Str := s.toList

/-- Lookup in an insertion-ordered association list; models `dict.get(k)`. -/
def dictGet {α : Type} (d : List (Str × α)) (k : Str) : Option α :=
  match d with
  | [] => Option.none
  | (k0, v0) :: rest => if k0 = k then some v0 else dictGet rest k

/-- Deletion from an association list; models `del d[k]` (first hit only,
keys are unique in the dicts the code builds). -/
def dictDel {α : Type} (d : List (Str × α)) (k : Str) : List (Str × α) :=
  match d with
  | [] => []
  | (k0, v0) :: rest => if k0 = k then rest else (k0, v0) :: dictDel rest k

/-- Python `s[:-n]` for `n ≥ 1`: remove the last `n` characters. -/
def dropRightN (l : Str) (n : Nat) : Str := l.take (l.length - n)

/-- Python `str.removesuffix`: drop the suffix once when it matches. -/
def pyRemovesuffix (l suf : Str) : Str :=
  if suf ≠ [] ∧ suf.isSuffixOf l then l.take (l.length - suf.length) else l

/-- Substring test: does `pat` occur contiguously inside `l`?  Used to state
the spec phrases of the form "the definition contains a DEFAULT clause". -/
def isSub (pat l : Str) : Bool := l.tails.any (fun t => pat.isPrefixOf t)

/-- Python `str.replace(needle, repl)` for a one-character needle. -/
def pyReplaceChar (needle : Char) (repl : Str) : Str → Str
  | [] => []
  | c :: t => (if c = needle then repl else [c]) ++ pyReplaceChar needle repl t

/-- The quote escaping performed by `StringType.to_sql`
(`value.replace("'", "\\'").replace('"', '\\"')`). -/
def escQuotes (s : Str) : Str :=
  pyReplaceChar '"' ['\\', '"'] (pyReplaceChar '\'' ['\\', '\''] s)

/-- Decimal digit to its character, for digits below ten. -/
def digitToChar (d : Nat) : Char :=
  if d = 0 then '0' else if d = 1 then '1' else if d = 2 then '2'
  else if d = 3 then '3' else if d = 4 then '4' else if d = 5 then '5'
  else if d = 6 then '6' else if d = 7 then '7' else if d = 8 then '8' else '9'

/-- Numeric value of a digit character. -/
def charDigitVal (c : Char) : Nat := c.toNat - 48

/-- Recogniser for the characters 0-9. -/
def isDigitChar (c : Char) : Bool := 48 ≤ c.toNat && c.toNat ≤ 57

/-- Decimal rendering of a natural number, most significant digit first;
models Python `str` applied to a nonnegative integer. -/
def natRepr (n : Nat) : Str :=
  if _ : n < 10 then [digitToChar n]
  else natRepr (n / 10) ++ [digitToChar (n % 10)]
decreasing_by exact Nat.div_lt_self (by omega) (by omega)

/-- Python `str` applied to an integer (`IntegerType.to_sql` is exactly this). -/
def pyIntRepr (n : Int) : Str :=
  match n with
  | Int.ofNat m => natRepr m
  | Int.negSucc m => '-' :: natRepr (m + 1)

/-! ## Python values and the column type system (src/mysql.py lines 56-305) -/

/-- The host-language values the column types receive.  `obj` stands for any
other Python object (used opaquely, e.g. nested records). -/
inductive PyVal where
  | int (n : Int)
  | str (s : Str)
  | bytes (b : Str)
  | bool (b : Bool)
  | none
  | obj
deriving DecidableEq

/-- Python truthiness of a value. -/
def pyTruthy : PyVal → Bool
  | .int n => n ≠ 0
  | .str s => s ≠ []
  | .bytes b => b ≠ []
  | .bool b => b
  | .none => false
  | .obj => true

/-- Python `str(x)`.  The `bytes` case is approximated as the `b'...'` form
(only the `int`, `str` and `bool` cases are exercised by the theorems). -/
def pyStrFn : PyVal → Str
  | .int n => pyIntRepr n
  | .str s => s
  | .bytes b => lc "b'" ++ b ++ lc "'"
  | .bool b => if b then lc "True" else lc "False"
  | .none => lc "None"
  | .obj => lc "<object>"

/-- The error taxonomy of the spec: `TypeMismatch` corresponds to the
`TypeError("Cannot convert ... to SQL")` raises, `UnknownField` to the
`ValueError("... is not a field")` raises, `keyError` to Python `KeyError`. -/
inductive SqlErr where
  | typeMismatch
  | unknownField
  | keyError
deriving DecidableEq

deriving instance DecidableEq for Except

/-- `StringType.to_python` with `convert=True` is `lambda x: str(x)`. -/
def stringTypeToPython (v : PyVal) : PyVal := .str (pyStrFn v)

/-- `StringType.to_sql` (src/mysql.py lines 80-86): quote-escape `str` or
decoded `bytes` and wrap in single quotes; anything else raises. -/
def stringTypeToSql (v : PyVal) : Except SqlErr Str :=
  match v with
  | .str s => .ok (['\''] ++ escQuotes s ++ ['\''])
  | .bytes b => .ok (['\''] ++ escQuotes b ++ ['\''])
  | _ => .error .typeMismatch

/-- `IntegerType.to_python` with `convert=True` is `lambda x: int(x)`; on an
integer raw database value this is the identity. -/
def integerTypeToPython (n : Int) : Int := n

/-- `IntegerType.to_sql` is `lambda x: str(x)` (src/mysql.py line 184):
it renders any value textually and never raises. -/
def integerTypeToSql (v : PyVal) : Except SqlErr Str := .ok (pyStrFn v)

/-- `BooleanType.to_python` is `bool(value)`. -/
def booleanTypeToPython (v : PyVal) : Bool := pyTruthy v

/-- `BooleanType.to_sql` (src/mysql.py lines 200-205): `TRUE`/`FALSE` for
`bool` or `int` values by truthiness, raise otherwise. -/
def booleanTypeToSql (v : PyVal) : Except SqlErr Str :=
  match v with
  | .int n => .ok (if pyTruthy (.int n) then lc "TRUE" else lc "FALSE")
  | .bool b => .ok (if pyTruthy (.bool b) then lc "TRUE" else lc "FALSE")
  | _ => .error .typeMismatch

/-! ## Denotation of SQL literals

Modelled from the spec: the target dialect is MySQL (the module drives
`pymysql`), where a single-quoted string literal uses backslash escapes.
These definitions give the semantics against which "a SQL literal denoting
a value semantically equal to x" is judged; they are the external database
collaborator, not repository code. -/

/-- Value of one backslash escape inside a MySQL string literal. -/
def unescChar (c : Char) : Char :=
  if c = '0' then Char.ofNat 0
  else if c = 'b' then Char.ofNat 8
  else if c = 'n' then '\n'
  else if c = 'r' then '\r'
  else if c = 't' then '\t'
  else if c = 'Z' then Char.ofNat 26
  else c

/-- Scan the body of a single-quoted MySQL string literal, returning the
denoted characters and the input remaining after the closing quote.
A doubled quote denotes a quote; a backslash escapes the next character;
a backslash at the end of input is an unterminated literal. -/
def parseBody : Str → Option (Str × Str)
  | [] => Option.none
  | [c] => if c = '\'' then some ([], []) else Option.none
  | c :: d :: rest =>
    if c = '\\' then (parseBody rest).map (fun p => (unescChar d :: p.1, p.2))
    else if c = '\'' then
      if d = '\'' then (parseBody rest).map (fun p => ('\'' :: p.1, p.2))
      else some ([], d :: rest)
    else (parseBody (d :: rest)).map (fun p => (c :: p.1, p.2))

/-- Denotation of a complete MySQL single-quoted string literal: `some v`
when the text is exactly one literal denoting `v`, `Option.none` otherwise. -/
def mysqlEvalStringLit (l : Str) : Option Str :=
  match l with
  | '\'' :: rest =>
    match parseBody rest with
    | some (v, []) => some v
    | _ => Option.none
  | _ => Option.none

/-- Accumulating decimal evaluation of digit characters. -/
def parseNatCore (acc : Nat) (l : Str) : Nat :=
  l.foldl (fun a c => a * 10 + charDigitVal c) acc

/-- Denotation of an unsigned decimal integer literal. -/
def parseNatLit (l : Str) : Option Nat :=
  if l ≠ [] ∧ l.all isDigitChar then some (parseNatCore 0 l) else Option.none

/-- Denotation of a (possibly negative) decimal integer literal, the form
`IntegerType.to_sql` emits. -/
def parseIntLit (l : Str) : Option Int :=
  match l with
  | [] => Option.none
  | c :: rest =>
    if c = '-' then (parseNatLit rest).map (fun m => -(m : Int))
    else (parseNatLit (c :: rest)).map (fun m => (m : Int))

/-! ## Round-trip lemmas for the column types -/

theorem digitToChar_val (d : Nat) (h : d < 10) :
    charDigitVal (digitToChar d) = d ∧ isDigitChar (digitToChar d) = true := by
  interval_cases d <;> exact ⟨by decide, by decide⟩

theorem natRepr_spec (n : Nat) :
    (natRepr n).all isDigitChar = true ∧ natRepr n ≠ [] ∧
      parseNatCore 0 (natRepr n) = n := by
  induction n using Nat.strong_induction_on with
  | _ n ih =>
    rw [natRepr]
    split
    · rename_i h
      obtain ⟨hv, hd⟩ := digitToChar_val n h
      refine ⟨by simp [hd], by simp, ?_⟩
      simp [parseNatCore, hv]
    · rename_i h
      have hdiv : n / 10 < n := Nat.div_lt_self (by omega) (by omega)
      obtain ⟨ha, hne, hval⟩ := ih (n / 10) hdiv
      have hm : n % 10 < 10 := Nat.mod_lt n (by omega)
      obtain ⟨hv2, hd2⟩ := digitToChar_val (n % 10) hm
      refine ⟨?_, by simp, ?_⟩
      · simp [List.all_append, ha, hd2]
      · unfold parseNatCore at hval ⊢
        rw [List.foldl_append, hval]
        simp [charDigitVal] at hv2 ⊢
        omega

theorem parseNatLit_natRepr (n : Nat) : parseNatLit (natRepr n) = some n := by
  obtain ⟨hall, hne, hval⟩ := natRepr_spec n
  simp [parseNatLit, hall, hne, hval]

theorem natRepr_head_digit (n : Nat) :
    ∃ c t, natRepr n = c :: t ∧ isDigitChar c = true := by
  obtain ⟨hall, hne, -⟩ := natRepr_spec n
  cases hre : natRepr n with
  | nil => exact absurd hre hne
  | cons c t =>
    refine ⟨c, t, rfl, ?_⟩
    rw [hre] at hall
    simp [List.all_cons] at hall
    exact hall.1

theorem parseIntLit_pyIntRepr (n : Int) : parseIntLit (pyIntRepr n) = some n := by
  cases n with
  | ofNat m =>
    obtain ⟨c, t, heq, hdig⟩ := natRepr_head_digit m
    have hc : c ≠ '-' := by
      intro hcc
      rw [hcc] at hdig
      exact absurd hdig (by decide)
    have hp : parseNatLit (c :: t) = some m := by rw [← heq]; exact parseNatLit_natRepr m
    show parseIntLit (natRepr m) = some (m : Int)
    rw [heq]
    simp [parseIntLit, hc, hp]
  | negSucc m =>
    show parseIntLit ('-' :: natRepr (m + 1)) = some (Int.negSucc m)
    simp [parseIntLit, parseNatLit_natRepr (m + 1), Int.negSucc_eq]

theorem pyReplaceChar_append (needle : Char) (repl : Str) (a b : Str) :
    pyReplaceChar needle repl (a ++ b) =
      pyReplaceChar needle repl a ++ pyReplaceChar needle repl b := by
  induction a with
  | nil => rfl
  | cons c t ih => simp [pyReplaceChar, ih]

theorem escQuotes_cons (c : Char) (t : Str) :
    escQuotes (c :: t) =
      (if c = '\'' then ['\\', '\''] else if c = '"' then ['\\', '"'] else [c])
        ++ escQuotes t := by
  by_cases h1 : c = '\''
  · subst h1; simp [escQuotes, pyReplaceChar]
  · by_cases h2 : c = '"'
    · subst h2; simp [escQuotes, pyReplaceChar]
    · simp [escQuotes, pyReplaceChar, h1, h2]

theorem escQuotes_eq_nil (t : Str) (h : escQuotes t = []) : t = [] := by
  cases t with
  | nil => rfl
  | cons c r =>
    rw [escQuotes_cons] at h
    by_cases h1 : c = '\'' <;> by_cases h2 : c = '"' <;> simp [h1, h2] at h

theorem parseBody_escQuotes (s : Str) (h : '\\' ∉ s) :
    parseBody (escQuotes s ++ ['\'']) = some (s, []) := by
  induction s with
  | nil => simp [escQuotes, pyReplaceChar, parseBody]
  | cons c t ih =>
    have hc : c ≠ '\\' := fun hcc => h (hcc ▸ List.mem_cons_self c t)
    have ht : '\\' ∉ t := fun htt => h (List.mem_cons_of_mem c htt)
    have iht := ih ht
    rw [escQuotes_cons]
    by_cases h1 : c = '\''
    · subst h1
      simp only [if_pos rfl, List.cons_append, List.nil_append]
      simp [parseBody, iht, unescChar]
    · by_cases h2 : c = '"'
      · subst h2
        simp only [if_neg h1, if_pos rfl, List.cons_append, List.nil_append]
        simp [parseBody, iht, unescChar]
      · simp only [if_neg h1, if_neg h2, List.cons_append, List.nil_append]
        cases hE : escQuotes t with
        | nil =>
          have ht0 : t = [] := escQuotes_eq_nil t hE
          subst ht0
          simp [parseBody, hc, h1, escQuotes, pyReplaceChar]
        | cons d rest =>
          rw [hE] at iht
          simp only [List.cons_append] at iht
          simp [parseBody, hc, h1, iht]

theorem mysqlEval_escQuotes (s : Str) (h : '\\' ∉ s) :
    mysqlEvalStringLit (['\''] ++ escQuotes s ++ ['\'']) = some s := by
  have hb := parseBody_escQuotes s h
  show mysqlEvalStringLit ('\'' :: (escQuotes s ++ ['\''])) = some s
  rw [mysqlEvalStringLit]
  simp [hb]

/-! ## Substring infrastructure -/

theorem isPrefixOf_self_append (p b : Str) : p.isPrefixOf (p ++ b) = true := by
  induction p with
  | nil => simp [List.isPrefixOf]
  | cons c t ih => simp [List.isPrefixOf, ih]

theorem isSub_append (p a b : Str) : isSub p (a ++ (p ++ b)) = true := by
  induction a with
  | nil =>
    rw [List.nil_append]
    unfold isSub
    cases p with
    | nil =>
      cases b with
      | nil => decide
      | cons d bt =>
        rw [List.nil_append, List.tails_cons, List.any_cons, Bool.or_eq_true]
        exact Or.inl rfl
    | cons c t =>
      rw [List.cons_append, List.tails_cons, List.any_cons, Bool.or_eq_true]
      exact Or.inl (isPrefixOf_self_append (c :: t) b)
  | cons c a' ih =>
    rw [List.cons_append]
    unfold isSub at ih ⊢
    rw [List.tails_cons, List.any_cons, Bool.or_eq_true]
    exact Or.inr ih

theorem isSub_append_nil (p a : Str) : isSub p (a ++ p) = true := by
  have := isSub_append p a []
  simpa using this

theorem space_isSuffixOf_append (l : Str) : (lc " ").isSuffixOf (l ++ [' ']) = true := by
  simp [lc, List.isSuffixOf, List.reverse_append, List.isPrefixOf]

theorem pyRemovesuffix_space (l : Str) : pyRemovesuffix (l ++ [' ']) (lc " ") = l := by
  unfold pyRemovesuffix
  rw [if_pos ⟨by decide, space_isSuffixOf_append l⟩]
  simp [lc]

theorem pyRemovesuffix_space_append (l body : Str) :
    pyRemovesuffix (l ++ (body ++ [' '])) (lc " ") = l ++ body := by
  rw [← List.append_assoc]
  exact pyRemovesuffix_space _

/-! ## Claim C5: to_sql / to_python round trip -/

/-- C5 counterexample: for `StringType` the raw value consisting of a single
backslash decodes to itself and re-encodes to the three characters
quote-backslash-quote, which is not a valid MySQL string literal (the
backslash escapes the closing quote), so the encoded text denotes no
value at all, let alone one equal to the original. -/
theorem c5_backslash_counterexample :
    stringTypeToSql (stringTypeToPython (.str (lc "\\"))) = .ok (lc "'\\'") ∧
    mysqlEvalStringLit (lc "'\\'") = Option.none := by
  constructor
  · rfl
  · rfl

/-- C5 (amended): `to_sql(to_python(x))` yields a literal denoting the
original value for `IntegerType` on every integer raw value, and for
`StringType` on every raw string containing no backslash; a backslash in
the raw string breaks the round trip because `StringType.to_sql` escapes
quotes but not backslashes. -/
theorem c5_roundtrip_amended (n : Int) (s : Str) (hs : '\\' ∉ s) :
    integerTypeToSql (.int (integerTypeToPython n)) = .ok (pyIntRepr n) ∧
    parseIntLit (pyIntRepr n) = some n ∧
    stringTypeToSql (stringTypeToPython (.str s)) =
      .ok (['\''] ++ escQuotes s ++ ['\'']) ∧
    mysqlEvalStringLit (['\''] ++ escQuotes s ++ ['\'']) = some s :=
  ⟨rfl, parseIntLit_pyIntRepr n, rfl, mysqlEval_escQuotes s hs⟩

/-- C5 witness: the round trip evaluated at the integer 42 and the string
"a". -/
theorem c5_roundtrip_amended_witness :
    integerTypeToSql (.int (integerTypeToPython 42)) = .ok (pyIntRepr 42) ∧
    parseIntLit (pyIntRepr 42) = some 42 ∧
    stringTypeToSql (stringTypeToPython (.str (lc "a"))) =
      .ok (['\''] ++ escQuotes (lc "a") ++ ['\'']) ∧
    mysqlEvalStringLit (['\''] ++ escQuotes (lc "a") ++ ['\'']) = some (lc "a") :=
  c5_roundtrip_amended 42 (lc "a") (by decide)

/-! ## Claim C6: to_sql type rejection -/

/-- C6 counterexample: `IntegerType.to_sql` is `lambda x: str(x)` and
silently renders the incompatible string value "abc" as the bare SQL
token `abc` instead of signaling a TypeMismatch, so it is not true that
every ColumnType rejects values of an incompatible kind. -/
theorem c6_integer_accepts_string_counterexample :
    integerTypeToSql (.str (lc "abc")) = .ok (lc "abc") := rfl

/-- C6 (amended): `StringType.to_sql` signals TypeMismatch for every value
that is neither str nor bytes, and `BooleanType.to_sql` for every value
that is neither bool nor int; both conversions are pure functions of the
value, so the error propagates before any SQL is sent.  Numeric types do
not perform this check (see the counterexample). -/
theorem c6_tosql_rejects_amended (v w : PyVal)
    (hv : (∀ s, v ≠ .str s) ∧ (∀ b, v ≠ .bytes b))
    (hw : (∀ n, w ≠ .int n) ∧ (∀ b, w ≠ .bool b)) :
    stringTypeToSql v = .error .typeMismatch ∧
    booleanTypeToSql w = .error .typeMismatch := by
  constructor
  · cases v
    case str s => exact absurd rfl (hv.1 s)
    case bytes b => exact absurd rfl (hv.2 b)
    all_goals rfl
  · cases w
    case int n => exact absurd rfl (hw.1 n)
    case bool b => exact absurd rfl (hw.2 b)
    all_goals rfl

/-- C6 witness: both rejections evaluated at the value `None`. -/
theorem c6_tosql_rejects_amended_witness :
    stringTypeToSql .none = .error .typeMismatch ∧
    booleanTypeToSql .none = .error .typeMismatch :=
  c6_tosql_rejects_amended .none .none
    ⟨fun _ h => PyVal.noConfusion h, fun _ h => PyVal.noConfusion h⟩
    ⟨fun _ h => PyVal.noConfusion h, fun _ h => PyVal.noConfusion h⟩

/-! ## Claim C7: Field NULL/DEFAULT policy (src/mysql.py lines 450-548) -/

/-- `TimeStampType.__init__` type clause (src/mysql.py lines 287-292). -/
def timeStampDefinition (currentTimestamp : Bool) : Str :=
  lc "timestamp" ++ (if currentTimestamp then lc " DEFAULT CURRENT_TIMESTAMP" else [])

/-- The `default` argument of a field: absent, a `RawFormat`, or a value
already rendered through the column type's `default_format`. -/
inductive FieldDefault where
  | none
  | raw (value : Str)
  | val (formatted : Str)

/-- The NULL/DEFAULT policy text `_FieldBase.__init__` appends
(src/mysql.py lines 454-466). -/
def fieldBasePolicy (pk nullable : Bool) (default : FieldDefault) : Str :=
  if nullable && !pk then
    match default with
    | .none => lc "DEFAULT NULL "
    | .raw v => lc "DEFAULT " ++ v ++ lc " "
    | .val f => lc "DEFAULT " ++ f ++ lc " "
  else
    lc "NOT NULL " ++
      (match default with
       | .none => []
       | .raw v => lc "DEFAULT " ++ v ++ lc " "
       | .val f => lc "DEFAULT " ++ f ++ lc " ")

/-- `Field.__init__` (src/mysql.py lines 513-548): the column definition is
the type clause, a space, optionally " AUTO_INCREMENT", the NULL/DEFAULT
policy, the raw args each followed by a space, with one trailing space
stripped at the end. -/
def fieldDefinition (typeDef : Str) (autoInc pk nullable : Bool)
    (default : FieldDefault) (rawArgs : List Str) : Str :=
  let d0 := typeDef ++ lc " "
  let d1 := if autoInc then d0 ++ lc " AUTO_INCREMENT" else d0
  let d2 := d1 ++ fieldBasePolicy pk nullable default
  let d3 := rawArgs.foldl (fun acc a => acc ++ a ++ lc " ") d2
  pyRemovesuffix d3 (lc " ")

theorem fieldDefinition_no_default (typeDef : Str) (ai pk nullable : Bool) :
    fieldDefinition typeDef ai pk nullable .none [] =
      (if ai then typeDef ++ lc " " ++ lc " AUTO_INCREMENT" else typeDef ++ lc " ") ++
        (if nullable && !pk then lc "DEFAULT NULL" else lc "NOT NULL") := by
  unfold fieldDefinition fieldBasePolicy
  cases hnp : nullable && !pk <;> simp only [hnp, List.foldl_nil] <;> simp
  · rw [show lc "NOT NULL " = lc "NOT NULL" ++ [' '] from rfl]
    rw [pyRemovesuffix_space_append]
  · rw [show lc "DEFAULT NULL " = lc "DEFAULT NULL" ++ [' '] from rfl]
    rw [pyRemovesuffix_space_append]

/-- C7 counterexample: `Field(TimeStampType(True), nullable=False)` has no
explicit default and is non-nullable, yet its rendered definition
contains a DEFAULT clause (carried by the type clause
"timestamp DEFAULT CURRENT_TIMESTAMP"), refuting "its definition
contains NOT NULL and no DEFAULT clause". -/
theorem c7_timestamp_counterexample :
    isSub (lc "NOT NULL")
      (fieldDefinition (timeStampDefinition true) false false false .none []) = true ∧
    isSub (lc "DEFAULT")
      (fieldDefinition (timeStampDefinition true) false false false .none []) = true := by
  constructor
  · decide
  · decide

/-- C7 (amended): for a `Field` constructed without an explicit default and
without raw args: if nullable and not primary, the definition contains
DEFAULT NULL; if non-nullable or primary (for any nullable flag), it
contains NOT NULL and the NULL/DEFAULT policy text appended by
`_FieldBase.__init__` itself is exactly "NOT NULL " with no DEFAULT
clause — though the column type's own clause may still carry a DEFAULT,
as `TimeStampType` does (see the counterexample). -/
theorem c7_field_policy_amended (typeDef : Str) (ai nullable : Bool) :
    isSub (lc "DEFAULT NULL")
      (fieldDefinition typeDef ai false true .none []) = true ∧
    isSub (lc "NOT NULL")
      (fieldDefinition typeDef ai false false .none []) = true ∧
    isSub (lc "NOT NULL")
      (fieldDefinition typeDef ai true nullable .none []) = true ∧
    fieldBasePolicy false false .none = lc "NOT NULL " ∧
    fieldBasePolicy true nullable .none = lc "NOT NULL " ∧
    isSub (lc "DEFAULT") (lc "NOT NULL ") = false := by
  refine ⟨?_, ?_, ?_, by decide, ?_, by decide⟩
  · have h := isSub_append_nil (lc "DEFAULT NULL")
      (if ai then typeDef ++ lc " " ++ lc " AUTO_INCREMENT" else typeDef ++ lc " ")
    rw [fieldDefinition_no_default]
    simpa using h
  · have h := isSub_append_nil (lc "NOT NULL")
      (if ai then typeDef ++ lc " " ++ lc " AUTO_INCREMENT" else typeDef ++ lc " ")
    rw [fieldDefinition_no_default]
    simpa using h
  · have h := isSub_append_nil (lc "NOT NULL")
      (if ai then typeDef ++ lc " " ++ lc " AUTO_INCREMENT" else typeDef ++ lc " ")
    rw [fieldDefinition_no_default]
    simpa using h
  · cases nullable <;> decide

/-! ## Claim C8: the table registry (src/mysql.py lines 811-855, 967-968) -/

/-- One table declaration event: the class name and the `model` keyword of
`__init_subclass__` (registration is skipped when it is false). -/
structure TableDecl where
  name : Str
  model : Bool

/-- Registration step of `Model.__init_subclass__` (src/mysql.py 828-829):
append the class to the process-wide `models` list unless a class of the
same name is already registered. -/
def registerTable (ms : List Str) (d : TableDecl) : List Str :=
  if d.model = true ∧ d.name ∉ ms then ms ++ [d.name] else ms

/-- The registry contents after a sequence of declarations. -/
def registryAfter (ds : List TableDecl) : List Str :=
  ds.foldl registerTable []

/-- First occurrence of each name in order: the reference order for
"the registry lists tables in first-declaration order". -/
def firstOccurrences (l : List Str) : List Str :=
  l.foldl (fun acc n => if n ∈ acc then acc else acc ++ [n]) []

theorem registry_foldl_eq (ds : List TableDecl) (acc : List Str) :
    ds.foldl registerTable acc =
      (ds.filterMap (fun d => if d.model then some d.name else Option.none)).foldl
        (fun a n => if n ∈ a then a else a ++ [n]) acc := by
  induction ds generalizing acc with
  | nil => rfl
  | cons d rest ih =>
    cases hm : d.model
    · simp [registerTable, hm, ih]
    · by_cases hmem : d.name ∈ acc <;> simp [registerTable, hm, hmem, ih]

theorem firstOcc_foldl_nodup (l : List Str) (acc : List Str) (hacc : acc.Nodup) :
    (l.foldl (fun a n => if n ∈ a then a else a ++ [n]) acc).Nodup := by
  induction l generalizing acc with
  | nil => exact hacc
  | cons n rest ih =>
    by_cases hmem : n ∈ acc
    · simpa [hmem] using ih acc hacc
    · have : (acc ++ [n]).Nodup := by
        simp [List.nodup_append, hacc, hmem]
      simpa [hmem] using ih (acc ++ [n]) this

/-- C8: the registry never holds two entries of the same name, a declaration
whose name is already registered leaves the registry unchanged, and the
registry equals the first-occurrence sequence of the declared (model)
names, i.e. tables appear in first-declaration order. -/
theorem c8_registry_unique (ds : List TableDecl) (ms : List Str) (d : TableDecl)
    (h : d.name ∈ ms) :
    (registryAfter ds).Nodup ∧
    registryAfter ds =
      firstOccurrences
        (ds.filterMap (fun x => if x.model then some x.name else Option.none)) ∧
    registerTable ms d = ms := by
  refine ⟨?_, ?_, ?_⟩
  · rw [registryAfter, registry_foldl_eq]
    exact firstOcc_foldl_nodup _ [] List.nodup_nil
  · rw [registryAfter, registry_foldl_eq]; rfl
  · unfold registerTable
    rw [if_neg]
    intro hc
    exact hc.2 h

/-- C8 witness: a duplicate declaration of `User` inserts no second entry and
the registry stays duplicate-free and in first-declaration order. -/
theorem c8_registry_unique_witness :
    (registryAfter [⟨lc "User", true⟩, ⟨lc "Post", true⟩, ⟨lc "User", true⟩]).Nodup ∧
    registryAfter [⟨lc "User", true⟩, ⟨lc "Post", true⟩, ⟨lc "User", true⟩] =
      firstOccurrences
        ([⟨lc "User", true⟩, ⟨lc "Post", true⟩, (⟨lc "User", true⟩ : TableDecl)].filterMap
          (fun x => if x.model then some x.name else Option.none)) ∧
    registerTable [lc "User", lc "Post"] ⟨lc "User", true⟩ = [lc "User", lc "Post"] :=
  c8_registry_unique [⟨lc "User", true⟩, ⟨lc "Post", true⟩, ⟨lc "User", true⟩]
    [lc "User", lc "Post"] ⟨lc "User", true⟩ (by decide)

/-! ## Claim C10: count and its mutable default condition
(src/mysql.py lines 693-704) -/

/-- `select(RawFormat("COUNT(*)")).from_(model)` (src/mysql.py 389-391,
432-447). -/
def selectCountFrom (tname : Str) : Str :=
  lc "SELECT " ++ lc "COUNT(*)" ++ lc " FROM " ++ tname

/-- One call of `_Records.count` with the `condition` argument left at its
default.  The default `_SelectQuery()` is created once, at function
definition time, and `condition += ...` mutates it in place, so its
accumulated text (`condState`) persists between calls; the call returns
the executed SQL (execute appends the semicolon) and the default
object's state after the call.  Note the code truncates five characters
from the COUNT query rather than from the condition. -/
def countCall (tname : Str) (condState : Str) (kwargs : List (Str × Str)) :
    Str × Str :=
  let query := selectCountFrom tname
  if kwargs ≠ [] then
    let cond := condState ++
      (kwargs.map (fun kv => kv.1 ++ lc " = " ++ kv.2 ++ lc " AND ")).flatten
    (dropRightN query 5 ++ lc " WHERE " ++ cond ++ lc ";", cond)
  else
    (query ++ lc " WHERE " ++ condState ++ lc ";", condState)

/-- C10: two successive `count(name=a)` calls with the condition argument
left at its default produce different SQL — the second call's WHERE
clause repeats the first call's filter, because the default
`_SelectQuery` is a mutable default argument that keeps its state. -/
theorem c10_count_not_deterministic :
    countCall (lc "Tbl") [] [(lc "name", lc "a")] =
      (lc "SELECT COUNT(*) FRO WHERE name = a AND ;", lc "name = a AND ") ∧
    countCall (lc "Tbl") (lc "name = a AND ") [(lc "name", lc "a")] =
      (lc "SELECT COUNT(*) FRO WHERE name = a AND name = a AND ;",
       lc "name = a AND name = a AND ") ∧
    (countCall (lc "Tbl") [] [(lc "name", lc "a")]).1 ≠
      (countCall (lc "Tbl")
        (countCall (lc "Tbl") [] [(lc "name", lc "a")]).2 [(lc "name", lc "a")]).1 := by
  refine ⟨by decide, by decide, by decide⟩

/-! ## Claim C3: filter (src/mysql.py lines 629-636, 674-687) -/

/-- A database row: an association list column name → stored value text. -/
abbrev Row := List (Str × Str)

/-- `_Records._select_data` with the default (None) query argument: start
from "SELECT * FROM name WHERE ", append "k = 'v' AND " per kwarg, cut
the last five characters, and terminate with a semicolon. -/
def selectDataSql (tname : Str) (kwargs : List (Str × Str)) : Str :=
  let q0 := lc "SELECT * FROM " ++ tname ++ lc " WHERE "
  let q1 := q0 ++ (kwargs.map (fun kv => kv.1 ++ lc " = '" ++ kv.2 ++ lc "' AND ")).flatten
  dropRightN q1 5 ++ lc ";"

/-- Modelled from the spec: the restricted SELECT grammar the module emits
toward its external MySQL session — a star-select from one table,
optionally with a bare table alias, and an optional WHERE conjunction of
column = 'literal' equality tests. -/
structure SelectAST where
  table : Str
  tableAlias : Option Str
  whereEq : List (Str × Str)

/-- Standard MySQL rendering of a `SelectAST`. -/
def renderSelect (q : SelectAST) : Str :=
  lc "SELECT * FROM " ++ q.table ++
    (match q.tableAlias with | some a => lc " " ++ a | Option.none => []) ++
    (if q.whereEq = [] then [] else
      lc " WHERE " ++ List.intercalate (lc " AND ")
        (q.whereEq.map (fun kv => kv.1 ++ lc " = '" ++ kv.2 ++ lc "'"))) ++
    lc ";"

/-- Satisfaction of the equality conjunction by a row. -/
def rowMatches (conds : List (Str × Str)) (r : Row) : Bool :=
  conds.all (fun kv => decide (dictGet r kv.1 = some kv.2))

/-- Modelled from the spec: MySQL's result for a `SelectAST` against a table
state — the rows satisfying the WHERE conjunction, kept in table order;
an alias renames the table within the query and does not change the row
set. -/
def evalSelect (q : SelectAST) (tbl : List Row) : List Row :=
  tbl.filter (rowMatches q.whereEq)

/-- A Record as `filter` builds one from a fetched row (`self.model(data)`);
for C3 only the carried row matters. -/
structure FetchedRecord where
  data : Row
deriving DecidableEq

/-- Wrapping of the fetched rows, in cursor order, as done by the list
comprehension in `_Records.filter`. -/
def wrapRecords (rows : List Row) : List FetchedRecord :=
  rows.map FetchedRecord.mk

theorem dropRightN_append (l m : Str) (n : Nat) (h : n ≤ m.length) :
    dropRightN (l ++ m) n = l ++ dropRightN m n := by
  unfold dropRightN
  rw [List.length_append,
    show l.length + m.length - n = l.length + (m.length - n) by omega]
  exact List.take_append ..

/-- C3: `filter()` with no kwargs emits exactly the text of an unconditioned
star-select (with the stray bare alias `W` left by the five-character
cut), whose evaluation returns every row; `filter(k=v)` emits exactly a
star-select whose WHERE clause is the single equality test, whose
evaluation returns all and only the rows where column `k` stores `v`,
in table order; the fetched rows are wrapped as Records one for one. -/
theorem c3_filter_semantics (tname : Str) (tbl : List Row) (k v : Str) :
    selectDataSql tname [] = renderSelect ⟨tname, some (lc "W"), []⟩ ∧
    evalSelect ⟨tname, some (lc "W"), []⟩ tbl = tbl ∧
    selectDataSql tname [(k, v)] = renderSelect ⟨tname, Option.none, [(k, v)]⟩ ∧
    evalSelect ⟨tname, Option.none, [(k, v)]⟩ tbl =
      tbl.filter (fun r => decide (dictGet r k = some v)) ∧
    wrapRecords (evalSelect ⟨tname, Option.none, [(k, v)]⟩ tbl) =
      (tbl.filter (fun r => decide (dictGet r k = some v))).map FetchedRecord.mk := by
  have h4 : evalSelect ⟨tname, Option.none, [(k, v)]⟩ tbl =
      tbl.filter (fun r => decide (dictGet r k = some v)) := by
    unfold evalSelect
    apply List.filter_congr
    intro r _
    simp [rowMatches]
  refine ⟨?_, ?_, ?_, h4, by rw [wrapRecords, h4]⟩
  · show dropRightN ((lc "SELECT * FROM " ++ tname ++ lc " WHERE ") ++ []) 5 ++ lc ";" = _
    rw [List.append_nil, List.append_assoc,
      dropRightN_append (lc "SELECT * FROM ") (tname ++ lc " WHERE ") 5
        (by rw [List.length_append, show (lc " WHERE ").length = 7 from rfl]; omega),
      dropRightN_append tname (lc " WHERE ") 5 (by decide),
      show dropRightN (lc " WHERE ") 5 = lc " " ++ lc "W" from rfl]
    simp [renderSelect]
  · simp [evalSelect, rowMatches]
  · show dropRightN ((lc "SELECT * FROM " ++ tname ++ lc " WHERE ") ++
      ((k ++ lc " = '" ++ v ++ lc "' AND ") ++ [])) 5 ++ lc ";" = _
    rw [List.append_nil]
    have hshape : (lc "SELECT * FROM " ++ tname ++ lc " WHERE ") ++
        (k ++ lc " = '" ++ v ++ lc "' AND ") =
        ((lc "SELECT * FROM " ++ tname ++ lc " WHERE ") ++
          (k ++ lc " = '" ++ v ++ lc "'")) ++ lc " AND " := by
      simp [lc]
    rw [hshape, dropRightN_append _ (lc " AND ") 5 (by decide)]
    show _ = lc "SELECT * FROM " ++ tname ++ [] ++
      (lc " WHERE " ++ List.intercalate (lc " AND ") [k ++ lc " = '" ++ v ++ lc "'"]) ++ lc ";"
    simp [dropRightN, List.intercalate, lc]

/-! ## Claim C4: unknown-field validation in the query-set operations
(src/mysql.py lines 610-740) -/

/-- A declared table as the query-set operations see it: the table name and
the ordered field dict, each field carrying its `to_sql` conversion. -/
structure QModel where
  name : Str
  fields : List (Str × (PyVal → Except SqlErr Str))

/-- Loop of `_Records.__call__` (create, src/mysql.py 619-623): extend the
column list and the VALUES list per kwarg; the key is appended before
the field lookup, and an unknown key raises (UnknownField is the spec's
name for the `ValueError`) before anything is executed. -/
def createLoop (m : QModel) (kwargs : List (Str × PyVal)) (q v : Str) :
    Except SqlErr (Str × Str) :=
  match kwargs with
  | [] => .ok (q, v)
  | (key, value) :: rest =>
    let q := q ++ key ++ lc ", "
    match dictGet m.fields key with
    | Option.none => .error .unknownField
    | some toSql =>
      match toSql value with
      | .error e => .error e
      | .ok litv => createLoop m rest q (v ++ litv ++ lc ", ")

/-- `_Records.__call__` (src/mysql.py 614-627): on success exactly one
INSERT is executed (then committed); on error nothing reaches the
session, which the `Except` structure makes explicit — the statement
list is only produced on the success path, after the loop. -/
def recordsCreate (m : QModel) (kwargs : List (Str × PyVal)) :
    Except SqlErr (List Str) :=
  match createLoop m kwargs (lc "INSERT INTO " ++ m.name ++ lc " (") (lc "VALUES (") with
  | .error e => .error e
  | .ok (q, v) => .ok [dropRightN q 2 ++ lc ") " ++ dropRightN v 2 ++ lc ");"]

/-- Loop of `_Records.update` and of the ON DUPLICATE KEY part of
`_Records.create_or_update` (src/mysql.py 709-712, 733-736): the field
lookup happens before the append, an unknown key raises. -/
def updateLoop (m : QModel) (kwargs : List (Str × PyVal)) (q : Str) :
    Except SqlErr Str :=
  match kwargs with
  | [] => .ok q
  | (key, value) :: rest =>
    match dictGet m.fields key with
    | Option.none => .error .unknownField
    | some toSql =>
      match toSql value with
      | .error e => .error e
      | .ok litv => updateLoop m rest (q ++ key ++ lc " = " ++ litv ++ lc ", ")

/-- `_Records.update` (src/mysql.py 706-715): a table-wide UPDATE with no
WHERE; nothing is executed when the loop raises. -/
def recordsUpdate (m : QModel) (kwargs : List (Str × PyVal)) :
    Except SqlErr (List Str) :=
  match updateLoop m kwargs (lc "UPDATE " ++ m.name ++ lc " SET ") with
  | .error e => .error e
  | .ok q => .ok [dropRightN q 2 ++ lc ";"]

/-- `_Records.create_or_update` (src/mysql.py 722-740): INSERT ... ON
DUPLICATE KEY UPDATE over the same kwargs, executed only after both
loops succeed. -/
def recordsCreateOrUpdate (m : QModel) (kwargs : List (Str × PyVal)) :
    Except SqlErr (List Str) :=
  match createLoop m kwargs (lc "INSERT INTO " ++ m.name ++ lc " (") (lc "VALUES (") with
  | .error e => .error e
  | .ok (q, v) =>
    match updateLoop m kwargs
      (dropRightN q 2 ++ lc ") " ++ dropRightN v 2 ++ lc ") ON DUPLICATE KEY UPDATE ") with
    | .error e => .error e
    | .ok q2 => .ok [dropRightN q2 2 ++ lc ";"]

/-- `_Records.get` without a relation argument (src/mysql.py 629-636,
646-664): `_select_data` interpolates the kwargs into the SELECT and
executes it without any field validation; the fetched row comes back
from the external cursor. -/
def recordsGet (m : QModel) (fetched : Option Row) (kwargs : List (Str × Str)) :
    List Str × Option Row :=
  ([selectDataSql m.name kwargs], fetched)

/-- A concrete two-column table used by the counterexamples. -/
def demoQModel : QModel :=
  ⟨lc "User", [(lc "id", integerTypeToSql), (lc "name", stringTypeToSql)]⟩

/-- C4 counterexample: `get` called with a kwarg naming no declared field
(`bogus`) raises nothing and sends the interpolated SELECT to the
session, refuting "the operation signals an UnknownField error and no
SQL statement is sent" for get (and likewise filter/count, which share
`_select_data` and perform no lookup either). -/
theorem c4_get_unknown_field_counterexample :
    (dictGet demoQModel.fields (lc "bogus")).isNone = true ∧
    (recordsGet demoQModel Option.none [(lc "bogus", lc "x")]).1 =
      [lc "SELECT * FROM User WHERE bogus = 'x';"] := by
  refine ⟨by decide, by decide⟩

theorem createLoop_unknown (m : QModel) (kwargs : List (Str × PyVal))
    (h : ∃ kv ∈ kwargs, (dictGet m.fields kv.1).isNone = true) (q v : Str) :
    ∃ e, createLoop m kwargs q v = .error e := by
  induction kwargs generalizing q v with
  | nil =>
    obtain ⟨kv0, hmem, -⟩ := h
    exact absurd hmem (List.not_mem_nil kv0)
  | cons kv rest ih =>
    obtain ⟨key, value⟩ := kv
    obtain ⟨kv0, hmem, hmiss⟩ := h
    rcases List.mem_cons.mp hmem with heq | hrest
    · have hm0 : dictGet m.fields key = Option.none := by
        rw [heq] at hmiss
        simpa [Option.isNone_iff_eq_none] using hmiss
      exact ⟨.unknownField, by simp only [createLoop, hm0]⟩
    · cases hget : dictGet m.fields key with
      | none => exact ⟨.unknownField, by simp only [createLoop, hget]⟩
      | some toSql =>
        cases hsql : toSql value with
        | error e0 => exact ⟨e0, by simp only [createLoop, hget, hsql]⟩
        | ok litv =>
          obtain ⟨e1, h1⟩ := ih ⟨kv0, hrest, hmiss⟩ (q ++ key ++ lc ", ") (v ++ litv ++ lc ", ")
          exact ⟨e1, by simp only [createLoop, hget, hsql]; exact h1⟩

theorem updateLoop_unknown (m : QModel) (kwargs : List (Str × PyVal))
    (h : ∃ kv ∈ kwargs, (dictGet m.fields kv.1).isNone = true) (q : Str) :
    ∃ e, updateLoop m kwargs q = .error e := by
  induction kwargs generalizing q with
  | nil =>
    obtain ⟨kv0, hmem, -⟩ := h
    exact absurd hmem (List.not_mem_nil kv0)
  | cons kv rest ih =>
    obtain ⟨key, value⟩ := kv
    obtain ⟨kv0, hmem, hmiss⟩ := h
    rcases List.mem_cons.mp hmem with heq | hrest
    · have hm0 : dictGet m.fields key = Option.none := by
        rw [heq] at hmiss
        simpa [Option.isNone_iff_eq_none] using hmiss
      exact ⟨.unknownField, by simp only [updateLoop, hm0]⟩
    · cases hget : dictGet m.fields key with
      | none => exact ⟨.unknownField, by simp only [updateLoop, hget]⟩
      | some toSql =>
        cases hsql : toSql value with
        | error e0 => exact ⟨e0, by simp only [updateLoop, hget, hsql]⟩
        | ok litv =>
          obtain ⟨e1, h1⟩ := ih ⟨kv0, hrest, hmiss⟩ (q ++ key ++ lc " = " ++ litv ++ lc ", ")
          exact ⟨e1, by simp only [updateLoop, hget, hsql]; exact h1⟩

/-- C4 (amended): when some kwarg names an undeclared field, `create`,
`update` and `create_or_update` raise before any SQL is sent (the
raised error is UnknownField unless an earlier kwarg's value already
fails its to_sql); `get`, `filter`, `count` and the get of
`get_or_create` perform no field validation at all and send the
interpolated SQL (see the counterexample). -/
theorem c4_unknown_field_amended (m : QModel) (kwargs : List (Str × PyVal))
    (h : ∃ kv ∈ kwargs, (dictGet m.fields kv.1).isNone = true) :
    (∃ e, recordsCreate m kwargs = .error e) ∧
    (∃ e, recordsUpdate m kwargs = .error e) ∧
    (∃ e, recordsCreateOrUpdate m kwargs = .error e) := by
  obtain ⟨e1, h1⟩ := createLoop_unknown m kwargs h
    (lc "INSERT INTO " ++ m.name ++ lc " (") (lc "VALUES (")
  obtain ⟨e2, h2⟩ := updateLoop_unknown m kwargs h (lc "UPDATE " ++ m.name ++ lc " SET ")
  refine ⟨⟨e1, ?_⟩, ⟨e2, ?_⟩, ⟨e1, ?_⟩⟩
  · rw [recordsCreate, h1]
  · rw [recordsUpdate, h2]
  · rw [recordsCreateOrUpdate, h1]

/-- C4 witness: the three validating operations evaluated at the demo table
with the undeclared kwarg `bogus`. -/
theorem c4_unknown_field_amended_witness :
    (∃ e, recordsCreate demoQModel [(lc "bogus", .str (lc "x"))] = .error e) ∧
    (∃ e, recordsUpdate demoQModel [(lc "bogus", .str (lc "x"))] = .error e) ∧
    (∃ e, recordsCreateOrUpdate demoQModel [(lc "bogus", .str (lc "x"))] = .error e) :=
  c4_unknown_field_amended demoQModel [(lc "bogus", .str (lc "x"))]
    ⟨(lc "bogus", .str (lc "x")), by decide, by decide⟩

/-! ## Claim C1: live record binding (src/mysql.py lines 783-916, 919-955) -/

/-- Insertion-ordered dict write, modelling Python attribute assignment on
the instance dict: an existing key keeps its position, a new key is
appended. -/
def dictSet {α : Type} (d : List (Str × α)) (k : Str) (v : α) : List (Str × α) :=
  match d with
  | [] => [(k, v)]
  | (k0, v0) :: rest => if k0 = k then (k0, v) :: rest else (k0, v0) :: dictSet rest k v

/-- Python `name.startswith('_')`. -/
def startsWithUnderscore (name : Str) : Bool :=
  match name with
  | '_' :: _ => true
  | _ => false

/-- A declared field as the record machinery sees it.  For a foreign key,
`refTable`/`refField` name the referenced table and column; `definition`
is the rendered column definition (used by the on-the-fly ALTER). -/
structure RField where
  name : Str
  primary : Bool
  isFK : Bool
  hasSetter : Bool
  toSql : PyVal → Except SqlErr Str
  default : PyVal
  refTable : Str
  refField : Str
  definition : Str

/-- A declared table for the record machinery. -/
structure RModel where
  name : Str
  fields : List (Str × RField)

/-- Mutable state of one `Model` instance: the `matched` flag, the captured
`primary_data`, and the instance attribute dict. -/
structure RecState where
  matched : Bool
  primaryData : List (Str × Str)
  attrs : List (Str × PyVal)
deriving DecidableEq

/-- `_Record.update` (src/mysql.py 938-955): build one UPDATE for the given
kwarg, scoped by a WHERE over `primary_data`, and execute it.  Two
faithful oddities: the statement targets `self.__class__.__name__`,
which for the `_Record` binder object is the literal name "_Record",
and the value (already converted once by `__setattr__`) is passed
through the field's to_sql again. -/
def recordUpdate (m : RModel) (st : RecState) (key : Str) (v : PyVal) :
    Except SqlErr (List Str) :=
  match dictGet m.fields key with
  | Option.none => .error .unknownField
  | some f =>
    match f.toSql v with
    | .error e => .error e
    | .ok litv =>
      let q := lc "UPDATE _Record SET " ++ key ++ lc " = " ++ litv ++ lc ", "
      let q := dropRightN q 2 ++ lc " WHERE "
      let q := q ++ (st.primaryData.map (fun kv => kv.1 ++ lc " = " ++ kv.2 ++ lc " AND ")).flatten
      .ok [dropRightN q 5 ++ lc ";"]

/-- The unconditional attribute write performed by `super().__setattr__`. -/
def setattrState (st : RecState) (name : Str) (v : PyVal) : RecState :=
  { matched := if name = lc "matched" then pyTruthy v else st.matched
    primaryData := st.primaryData
    attrs := dictSet st.attrs name v }

/-- The persistence side of `Model.__setattr__` (src/mysql.py 857-867),
evaluated against the state after the plain write: nothing happens
unless the record is matched and the name has no leading underscore and
names a declared field; a declared custom setter is called instead of
SQL; otherwise the value goes through to_sql and `_Record.update`. -/
def setattrEmit (m : RModel) (st1 : RecState) (name : Str) (v : PyVal) :
    Except SqlErr (List Str) :=
  if st1.matched && !(startsWithUnderscore name) then
    match dictGet m.fields name with
    | Option.none => .ok []
    | some f =>
      if !f.isFK && f.hasSetter then .ok []
      else
        match f.toSql v with
        | .error e => .error e
        | .ok litv => recordUpdate m st1 name (.str litv)
  else .ok []

/-- `Model.__setattr__`: the plain write always happens; the returned
`Except` carries the SQL statements the write sent to the session. -/
def modelSetattr (m : RModel) (st : RecState) (name : Str) (v : PyVal) :
    RecState × Except SqlErr (List Str) :=
  let st1 := setattrState st name v
  (st1, setattrEmit m st1 name v)

/-- Threading of one `setattr` through an accumulated (state, session log)
computation. -/
def setattrStep (m : RModel) (acc : Except SqlErr (RecState × List Str))
    (name : Str) (v : PyVal) : Except SqlErr (RecState × List Str) :=
  match acc with
  | .error e => .error e
  | .ok (st, sent) =>
    match modelSetattr m st name v with
    | (_, .error e) => .error e
    | (st', .ok emitted) => .ok (st', sent ++ emitted)

/-- Pre-`setattr` part of one field of the `Model.match_attr` walk
(src/mysql.py 869-898), without relation kwargs: a primary column
records `data[name]` into `primary_data` (KeyError when the row lacks
it); for a plain field the code reads the column, issuing the
on-the-fly `ALTER TABLE ... ADD` when the row lacks it entirely;
a foreign key fetches the referenced rows with a SELECT (KeyError when
the row lacks the key column).  Returns the updated state and log. -/
def matchAttrPrep (m : RModel) (data : Row) (st : RecState) (sent : List Str)
    (attr : Str) (f : RField) : Except SqlErr (RecState × List Str) :=
  match (if f.primary then
      (dictGet data f.name).map (fun pv => st.primaryData ++ [(attr, pv)])
    else some st.primaryData) with
  | Option.none => .error .keyError
  | some pd2 =>
    let st2 : RecState := { st with primaryData := pd2 }
    if f.isFK then
      match dictGet data f.name with
      | Option.none => .error .keyError
      | some rawv =>
        .ok (st2, sent ++ [lc "SELECT * FROM " ++ f.refTable ++ lc " WHERE " ++
          f.refField ++ lc " = '" ++ rawv ++ lc "'"])
    else
      match dictGet data f.name with
      | some _ => .ok (st2, sent)
      | Option.none =>
        .ok (st2, sent ++ [lc "ALTER TABLE " ++ m.name ++ lc " ADD " ++ f.name ++
          lc " " ++ f.definition ++ lc ";"])

/-- One field of the `match_attr` walk: the preparation above followed by
the `setattr` of the resulting attribute value — `field(value)`
produces a `_SelectQuery` object for a plain field, and nested
record(s) (or None) for a foreign key; both are opaque objects to this
record and are modelled as `.obj` (nested records are themselves never
matched, so their construction emits no further writes). -/
def matchAttrStep (m : RModel) (data : Row)
    (acc : Except SqlErr (RecState × List Str)) (af : Str × RField) :
    Except SqlErr (RecState × List Str) :=
  match acc with
  | .error e => .error e
  | .ok (st, sent) =>
    match af with
    | (attr, f) => setattrStep m (matchAttrPrep m data st sent attr f) attr .obj

/-- `Model.__init__` with `match=True` and no relation kwargs
(src/mysql.py 798-809), the constructor `get`/`filter` use on fetched
rows: write `matched = False`, `primary_data`, `object` (each through
`__setattr__`), then run the `match_attr` walk.  Nothing anywhere in
the class ever assigns `matched = True`. -/
def initModel (m : RModel) (data : Row) : Except SqlErr (RecState × List Str) :=
  let st0 : RecState := { matched := false, primaryData := [], attrs := [] }
  let a1 := setattrStep m (.ok (st0, [])) (lc "matched") (.bool false)
  let a2 := setattrStep m a1 (lc "primary_data") .obj
  let a3 := setattrStep m a2 (lc "object") .obj
  m.fields.foldl (matchAttrStep m data) a3

theorem dictGet_none_keys {α : Type} (d : List (Str × α)) (k : Str)
    (h : (dictGet d k).isNone = true) : ∀ kv ∈ d, kv.1 ≠ k := by
  induction d with
  | nil => intro kv hkv; exact absurd hkv (List.not_mem_nil kv)
  | cons kv0 rest ih =>
    intro kv hkv
    obtain ⟨k0, v0⟩ := kv0
    by_cases hk : k0 = k
    · rw [dictGet, if_pos hk] at h
      exact absurd h (by simp)
    · rw [dictGet, if_neg hk] at h
      rcases List.mem_cons.mp hkv with heq | hrest
      · subst heq; exact hk
      · exact ih h kv hrest

theorem setattrStep_matched (m : RModel) (acc : Except SqlErr (RecState × List Str))
    (name : Str) (v : PyVal) (hn : name ≠ lc "matched")
    (hacc : ∀ st sent, acc = .ok (st, sent) → st.matched = false) :
    ∀ st sent, setattrStep m acc name v = .ok (st, sent) → st.matched = false := by
  intro st sent hstep
  cases acc with
  | error e => exact absurd hstep (by simp [setattrStep])
  | ok p =>
    obtain ⟨st0, sent0⟩ := p
    have h0 := hacc st0 sent0 rfl
    rw [setattrStep, modelSetattr] at hstep
    cases hres : setattrEmit m (setattrState st0 name v) name v with
    | error e => rw [hres] at hstep; exact absurd hstep (by simp)
    | ok emitted =>
      rw [hres] at hstep
      simp only [Except.ok.injEq, Prod.mk.injEq] at hstep
      rw [← hstep.1, setattrState]
      simp [hn, h0]

theorem matchAttrPrep_matched (m : RModel) (data : Row) (st : RecState) (sent : List Str)
    (attr : Str) (f : RField) :
    ∀ st2 sent2, matchAttrPrep m data st sent attr f = .ok (st2, sent2) →
      st2.matched = st.matched := by
  intro st2 sent2 h
  unfold matchAttrPrep at h
  split at h
  · exact absurd h (by simp)
  · split at h
    · split at h
      · exact absurd h (by simp)
      · simp only [Except.ok.injEq, Prod.mk.injEq] at h
        rw [← h.1]
    · split at h
      · simp only [Except.ok.injEq, Prod.mk.injEq] at h
        rw [← h.1]
      · simp only [Except.ok.injEq, Prod.mk.injEq] at h
        rw [← h.1]

theorem matchAttr_fold_matched (m : RModel) (data : Row) (fields : List (Str × RField))
    (hf : ∀ kv ∈ fields, kv.1 ≠ lc "matched")
    (acc : Except SqlErr (RecState × List Str))
    (hacc : ∀ st sent, acc = .ok (st, sent) → st.matched = false) :
    ∀ st sent, fields.foldl (matchAttrStep m data) acc = .ok (st, sent) →
      st.matched = false := by
  induction fields generalizing acc with
  | nil => exact hacc
  | cons af rest ih =>
    refine ih (fun kv hkv => hf kv (List.mem_cons_of_mem af hkv)) _ ?_
    intro st sent hstep
    have hattr : af.1 ≠ lc "matched" := hf af (List.mem_cons_self af rest)
    cases acc with
    | error e => exact absurd hstep (by simp [matchAttrStep])
    | ok p =>
      obtain ⟨st0, sent0⟩ := p
      have h0 := hacc st0 sent0 rfl
      obtain ⟨attr, f⟩ := af
      simp only [matchAttrStep] at hstep
      exact setattrStep_matched m _ attr .obj hattr
        (fun st1 sent1 h1 =>
          (matchAttrPrep_matched m data st0 sent0 attr f st1 sent1 h1).trans h0)
        st sent hstep

/-- C1: the code never sets `matched` to True, so every Record built by
`Model.__init__` with match=True — in particular every Record `get`
returns — is not in the matched state, and a subsequent attribute
assignment (any name, in particular a declared non-underscore field)
performs only the plain write and issues no SQL at all; the claimed
single UPDATE never happens. -/
theorem c1_record_never_matched (m : RModel) (data : Row)
    (hm : (dictGet m.fields (lc "matched")).isNone = true)
    (name : Str) (v : PyVal) (st : RecState) (sent : List Str)
    (hinit : initModel m data = .ok (st, sent)) :
    st.matched = false ∧ (modelSetattr m st name v).2 = .ok [] := by
  have hfields := dictGet_none_keys m.fields (lc "matched") hm
  have hm0 : st.matched = false := by
    refine matchAttr_fold_matched m data m.fields hfields _ ?_ st sent hinit
    intro st3 sent3 h3
    refine setattrStep_matched m _ (lc "object") .obj (by decide) ?_ st3 sent3 h3
    intro st2 sent2 h2
    refine setattrStep_matched m _ (lc "primary_data") .obj (by decide) ?_ st2 sent2 h2
    intro st1 sent1 h1
    cases hres : setattrEmit m
        (setattrState { matched := false, primaryData := [], attrs := [] }
          (lc "matched") (.bool false)) (lc "matched") (.bool false) with
    | error e =>
      rw [setattrStep, modelSetattr, hres] at h1
      exact absurd h1 (by simp)
    | ok emitted =>
      rw [setattrStep, modelSetattr, hres] at h1
      simp only [Except.ok.injEq, Prod.mk.injEq] at h1
      rw [← h1.1, setattrState]
      simp [pyTruthy]
  refine ⟨hm0, ?_⟩
  rw [modelSetattr]
  simp only
  unfold setattrEmit
  by_cases hn : name = lc "matched"
  · subst hn
    cases hmt : (setattrState st (lc "matched") v).matched with
    | false => simp [hmt]
    | true =>
      rw [Option.isNone_iff_eq_none] at hm
      simp [hmt, startsWithUnderscore, hm]
  · have : (setattrState st name v).matched = false := by
      rw [setattrState]; simp [hn, hm0]
    simp [this]

/-- Demonstration that the write-through machinery is live code apart from
the flag: had a record been matched, an assignment to a declared plain
field without a custom setter would emit exactly the (doubly converted)
UPDATE that `_Record.update` builds. -/
theorem setattrEmit_matched_counterfactual (m : RModel) (st1 : RecState) (name : Str)
    (v : PyVal) (f : RField) (h1 : st1.matched = true)
    (h2 : startsWithUnderscore name = false) (h3 : dictGet m.fields name = some f)
    (h4 : f.isFK = false) (h5 : f.hasSetter = false) (litv : Str)
    (h6 : f.toSql v = .ok litv) :
    setattrEmit m st1 name v = recordUpdate m st1 name (.str litv) := by
  unfold setattrEmit
  rw [h1, h2, h3]
  simp [h4, h5, h6]

/-- C1 witness inputs: a two-column table and one fetched row. -/
def rDemoField (nm : Str) (primary : Bool) (toSql : PyVal → Except SqlErr Str) : RField :=
  { name := nm, primary := primary, isFK := false, hasSetter := false, toSql := toSql,
    default := .none, refTable := [], refField := [], definition := [] }

def rDemo : RModel :=
  ⟨lc "User", [(lc "id", rDemoField (lc "id") true integerTypeToSql),
               (lc "name", rDemoField (lc "name") false stringTypeToSql)]⟩

def rDemoRow : Row := [(lc "id", lc "1"), (lc "name", lc "Ann")]

/-- The record state `initModel` produces for the demo inputs. -/
def rDemoState : RecState :=
  { matched := false
    primaryData := [(lc "id", lc "1")]
    attrs := [(lc "matched", .bool false), (lc "primary_data", .obj), (lc "object", .obj),
              (lc "id", .obj), (lc "name", .obj)] }

/-- C1 witness: the demo record comes back unmatched and the assignment
`record.name = "b"` issues no SQL. -/
theorem c1_record_never_matched_witness :
    rDemoState.matched = false ∧
    (modelSetattr rDemo rDemoState (lc "name") (.str (lc "b"))).2 = .ok [] :=
  c1_record_never_matched rDemo rDemoRow (by decide) (lc "name") (.str (lc "b"))
    rDemoState [] (by decide)

/-! ## Migration engine (src/mysql.py lines 995-1152) — claims C2 and C9 -/

/-- Whitespace recogniser for Python `str.strip` / `str.split`. -/
def isSpaceChar (c : Char) : Bool :=
  c = ' ' || c = '\t' || c = '\n' || c = '\r'

/-- Python `str.strip()` (whitespace both ends). -/
def pyStrip (l : Str) : Str :=
  ((l.dropWhile isSpaceChar).reverse.dropWhile isSpaceChar).reverse

/-- Python `str.strip(ch)` for one character. -/
def pyStripChar (ch : Char) (l : Str) : Str :=
  ((l.dropWhile (· = ch)).reverse.dropWhile (· = ch)).reverse

/-- Worker of `splitOnSep`, structurally recursive on a fuel that starts at
the string length (each step consumes at least one character, so the
zero-fuel fallback is unreachable); structural recursion keeps the
definition kernel-evaluable. -/
def splitOnSepGo (sep : Str) : Nat → Str → Str → List Str
  | _, [], acc => [acc.reverse]
  | 0, l, acc => [acc.reverse ++ l]
  | fuel + 1, c :: rest, acc =>
    if sep ≠ [] ∧ sep.isPrefixOf (c :: rest) then
      acc.reverse :: splitOnSepGo sep fuel (List.drop (sep.length - 1) rest) []
    else splitOnSepGo sep fuel rest (c :: acc)

/-- Python `str.split(sep)` for a nonempty separator. -/
def splitOnSep (sep : Str) (l : Str) : List Str := splitOnSepGo sep l.length l []

/-- Worker of `replaceSub` with the same fuel pattern. -/
def replaceSubGo (sep repl : Str) : Nat → Str → Str
  | _, [] => []
  | 0, l => l
  | fuel + 1, c :: rest =>
    if sep ≠ [] ∧ sep.isPrefixOf (c :: rest) then
      repl ++ replaceSubGo sep repl fuel (List.drop (sep.length - 1) rest)
    else c :: replaceSubGo sep repl fuel rest

/-- Python `str.replace(sep, repl)` for a nonempty needle. -/
def replaceSub (sep repl : Str) (l : Str) : Str := replaceSubGo sep repl l.length l

/-- The backquote character MySQL quotes identifiers with. -/
def backquoteChar : Char := Char.ofNat 96

/-- Python `str.split()`: split on whitespace runs, no empty tokens. -/
def pySplitWs (l : Str) : List Str :=
  go l []
where
  go : Str → Str → List Str
    | [], acc => if acc = [] then [] else [acc.reverse]
    | c :: rest, acc =>
      if isSpaceChar c then
        if acc = [] then go rest [] else acc.reverse :: go rest []
      else go rest (c :: acc)

/-- The live schema as migrate parses it out of the `SHOW CREATE TABLE`
text: quoted-column-name → definition text, plus the residual
non-column clauses. -/
structure LiveSchema where
  definitions : List (Str × Str)
  otherDefs : List Str
deriving DecidableEq

/-- One line of the creation-text parse (src/mysql.py 1024-1028); a line
with no tokens would raise an IndexError on `_c_arr[0]`, modelled as
`Option.none`. -/
def parseLine (acc : Option LiveSchema) (line : Str) : Option LiveSchema :=
  match acc with
  | Option.none => Option.none
  | some ls =>
    match pySplitWs (pyStrip line) with
    | [] => Option.none
    | tok0 :: rest =>
      if startsWithBackquote tok0 then
        let v := pyRemovesuffix (List.intercalate (lc " ") rest) (lc ",")
        some { ls with
          definitions := dictSet ls.definitions (pyStripChar backquoteChar tok0) v }
      else
        let v := pyRemovesuffix (List.intercalate (lc " ") (tok0 :: rest)) (lc ",")
        some { ls with otherDefs := ls.otherDefs ++ [v] }
where
  startsWithBackquote (tok : Str) : Bool :=
    match tok with
    | c :: _ => c = backquoteChar
    | _ => false

/-- Lines 1024-1028 of migrate: split the creation text on newlines, drop
the first and last line, and sort each remaining line into column
definitions or residual clauses. -/
def parseCreationQuery (text : Str) : Option LiveSchema :=
  (((splitOnSep (lc "\n") text).drop 1).dropLast).foldl parseLine (some ⟨[], []⟩)

/-- A declared field as `migrate` sees it (iteration order of
`model.fields.values()`): SQL name, rendered definition text, and the
foreign-key flag.  A `ForeignKey` definition always contains the
`",\n\t"` separator by construction (src/mysql.py 592). -/
structure MField where
  name : Str
  definition : Str
  isFK : Bool
deriving DecidableEq

/-- The separator between the column part and the constraint part of a
foreign-key definition. -/
def fkSep : Str := lc ",\n\t"

/-- Lines 1030-1043 of migrate: per declared field compute the comparable
definition text `fd` (first `fkSep` part for a foreign key, stripped
definition otherwise), record missing foreign-key clauses, and collect
into `different_attrs` every field whose `fd` differs from the live
definition under the same name.  Returns
(`different_attrs`, `foreign_keys`). -/
def diffFields (live : LiveSchema) (fields : List MField) :
    List (Str × Str) × List (Str × Str) :=
  fields.foldl
    (fun acc f =>
      let parts := splitOnSep fkSep f.definition
      let fd := if f.isFK then parts.headD [] else pyStrip f.definition
      let fks :=
        if f.isFK then
          let kd := (parts.drop 1).headD []
          if kd ∈ live.otherDefs then acc.2
          else dictSet acc.2 f.name (replaceSub (lc "\n\t") (lc " ") kd)
        else acc.2
      let da := if dictGet live.definitions f.name ≠ some fd
        then dictSet acc.1 f.name fd else acc.1
      (da, fks))
    ([], [])

/-- Lines 1045-1047 of migrate: live columns neither declared by the model
nor already put into `different_attrs`. -/
def diffColumns (live : LiveSchema) (fieldNames : List Str)
    (da : List (Str × Str)) : List (Str × Str) :=
  live.definitions.foldl
    (fun dc kv =>
      if kv.1 ∉ fieldNames ∧ (dictGet da kv.1).isNone then dc ++ [kv] else dc)
    []

/-- The faithful skip test of migrate line 1053:
`if not (different_columns and different_attrs): continue` — the table
is processed only when BOTH dicts are non-empty (Python truthiness). -/
def skipTable (da dc : List (Str × Str)) : Bool :=
  !(decide (dc ≠ []) && decide (da ≠ []))

/-- Live schema text of a table that already has `id` and `name` but lacks
the newly declared `email` column. -/
def c2DemoText : Str :=
  lc "CREATE TABLE `User` (\n  `id` int unsigned NOT NULL,\n  `name` varchar(50) NOT NULL,\n  PRIMARY KEY (`id`)\n)"

def c2DemoFields : List MField :=
  [⟨lc "id", lc "int unsigned NOT NULL", false⟩,
   ⟨lc "name", lc "varchar(50) NOT NULL", false⟩,
   ⟨lc "email", lc "varchar(50) DEFAULT NULL", false⟩]

def c2DemoLive : LiveSchema :=
  { definitions := [(lc "id", lc "int unsigned NOT NULL"),
                    (lc "name", lc "varchar(50) NOT NULL")]
    otherDefs := [lc "PRIMARY KEY (`id`)"] }

/-- C2: migrate's skip test is `not (different_columns and different_attrs)`
— it skips the table whenever EITHER diff dict is empty.  At the
failing input (a model that declares a new `email` column over an
otherwise in-sync live table), `different_attrs` is non-empty and
`different_columns` is empty, yet the table is skipped: no prompt runs
and no ALTER is assembled, while the claim (and spec, which skips only
when neither is non-empty) requires the resolution phases to run. -/
theorem c2_skip_condition_bug :
    parseCreationQuery c2DemoText = some c2DemoLive ∧
    (diffFields c2DemoLive c2DemoFields).1 =
      [(lc "email", lc "varchar(50) DEFAULT NULL")] ∧
    diffColumns c2DemoLive (c2DemoFields.map MField.name)
      (diffFields c2DemoLive c2DemoFields).1 = [] ∧
    skipTable (diffFields c2DemoLive c2DemoFields).1
      (diffColumns c2DemoLive (c2DemoFields.map MField.name)
        (diffFields c2DemoLive c2DemoFields).1) = true := by
  refine ⟨by decide, by decide, by decide, by decide⟩

/-! ## The interactive migration interpreter (claim C9) -/

/-- Operator decision at a phase-1 prompt.  In the "name not live" branch
the listed options are add / rename / skip and anything else aborts; in
the "equal name" branch they are modify / skip and anything else
aborts — a decision not offered by the branch therefore reads as the
abort option, exactly like an unlisted input number. -/
inductive AttrDec where
  | addNew (pos : Str)
  | renameFrom (src : Str)
  | modifyCol
  | skipAttr
  | abortAttr
deriving DecidableEq

/-- Operator decision at a phase-2 (undeclared live column) prompt. -/
inductive ColDec where
  | renameTo (nm : Str)
  | dropCol
  | skipCol
  | abortCol
deriving DecidableEq

/-- Operator decision at a phase-3 (missing foreign key) prompt. -/
inductive FkDec where
  | addFk
  | skipFk
  | abortFk
deriving DecidableEq

/-- Operator decision at the `_check_query` confirm step. -/
inductive ConfirmDec where
  | execQ
  | modifyQ (q : Str)
  | abortQ
deriving DecidableEq

/-- Outcome of one table's migration. -/
inductive MigOutcome where
  | completedRun
  | skippedSync
  | abortedRun
  | erroredRun
deriving DecidableEq

/-- Accumulated migration state for one table: the ALTER statement under
assembly, the satellite statement list, the session log, and the
current `different_columns` dict (phase 1 deletes renamed sources from
it). -/
structure MigState where
  query : Str
  queries : List Str
  sent : List Str
  diffCols : List (Str × Str)
deriving DecidableEq

/-- Result of one prompt step. -/
inductive StepRes where
  | proceed (st : MigState)
  | halt (out : MigOutcome)

/-- Result of one phase. -/
inductive PhaseRes where
  | cont (st : MigState)
  | stop (out : MigOutcome) (sent : List Str)

/-- The INFORMATION_SCHEMA lookup executed while reassigning a primary key
(src/mysql.py 1080-1085). -/
def infoSchemaQuery (tname pk : Str) : Str :=
  lc "SELECT TABLE_NAME, COLUMN_NAME, CONSTRAINT_NAME" ++
  lc "\nFROM INFORMATION_SCHEMA.KEY_COLUMN_USAGE" ++
  (lc "\nWHERE REFERENCED_TABLE_NAME = '" ++ tname ++ lc "'") ++
  (lc "\nAND REFERENCED_COLUMN_NAME = '" ++ pk ++ lc "'") ++ lc "\n;"

/-- A satellite DROP KEY statement (src/mysql.py 1087). -/
def dropKeyStmt (tbl constraintName : Str) : Str :=
  lc "ALTER TABLE " ++ tbl ++ lc "\n\tDROP KEY " ++ constraintName ++ lc "\n;\n"

/-- The "ADD `attr` ... [FIRST | AFTER pos]" text of the add-new-column
choice (src/mysql.py 1066-1075). -/
def addNewText (query attr fd pos : Str) : Str :=
  if pos = lc "FIRST" then
    query ++ lc "\n\tADD `" ++ attr ++ lc "` " ++ fd ++ lc " FIRST"
  else
    query ++ lc "\n\tADD `" ++ attr ++ lc "` " ++ fd ++ lc " AFTER " ++ pos

/-- Phase-1 prompt for an attribute whose name is not live
(src/mysql.py 1062-1097): the options are add-as-new-column (an invalid
position raises `ValueError`; adding a primary key executes one
INFORMATION_SCHEMA SELECT per other primary key and queues satellite
DROP KEY statements, then rewrites the PRIMARY KEY), rename-from-column
(a source absent from `different_columns` raises `KeyError` on the
`del`), skip (which bypasses the trailing comma), and abort for any
other input. -/
def phase1StepNew (tname : Str) (defs : List (Str × Str)) (pks : List Str)
    (env : Str → List (Str × Str)) (st : MigState) (attr fd : Str) :
    AttrDec → StepRes
  | .addNew pos =>
    if pos = lc "FIRST" ∨ (dictGet defs pos).isSome then
      if attr ∈ pks then
        .proceed { st with
          query := addNewText st.query attr fd pos ++
            lc ",\n\tDROP PRIMARY KEY,\n\tADD PRIMARY KEY(" ++
            List.intercalate (lc ", ") pks ++ lc ")" ++ lc ","
          sent := st.sent ++
            (pks.filter (fun pk => decide (pk ≠ attr))).map (infoSchemaQuery tname)
          queries := st.queries ++
            (pks.filter (fun pk => decide (pk ≠ attr))).flatMap
              (fun pk => (env pk).map (fun r => dropKeyStmt r.1 r.2)) }
      else .proceed { st with query := addNewText st.query attr fd pos ++ lc "," }
    else .halt .erroredRun
  | .renameFrom src =>
    if (dictGet st.diffCols src).isSome then
      .proceed { st with
        query := st.query ++ lc "\n\tCHANGE " ++ src ++ lc " " ++ attr ++ lc " " ++
          fd ++ lc ","
        diffCols := dictDel st.diffCols src }
    else .halt .erroredRun
  | .skipAttr => .proceed st
  | _ => .halt .abortedRun

/-- Phase-1 prompt for an attribute that exists live under the same name
(src/mysql.py 1098-1112): modify, skip, or abort for any other input. -/
def phase1StepLive (st : MigState) (attr fd : Str) : AttrDec → StepRes
  | .modifyCol =>
    .proceed { st with
      query := st.query ++ lc "\n\tMODIFY `" ++ attr ++ lc "` " ++ fd ++ lc "," }
  | .skipAttr => .proceed st
  | _ => .halt .abortedRun

/-- One phase-1 prompt (src/mysql.py 1056-1113): branch on whether the
differing attribute exists in the live definitions. -/
def phase1Step (tname : Str) (defs : List (Str × Str)) (pks : List Str)
    (env : Str → List (Str × Str)) (st : MigState) (item : Str × Str)
    (dec : AttrDec) : StepRes :=
  if (dictGet defs item.1).isNone then
    phase1StepNew tname defs pks env st item.1 item.2 dec
  else phase1StepLive st item.1 item.2 dec

/-- One phase-2 prompt (src/mysql.py 1115-1131). -/
def phase2Step (st : MigState) (item : Str × Str) (dec : ColDec) : StepRes :=
  match dec with
  | .renameTo nm =>
    .proceed { st with
      query := st.query ++ lc "\n\tCHANGE `" ++ item.1 ++ lc "` `" ++ nm ++ lc "` " ++
        item.2 ++ lc "," }
  | .dropCol =>
    .proceed { st with query := st.query ++ lc "\n\tDROP `" ++ item.1 ++ lc "`," }
  | .skipCol => .proceed st
  | .abortCol => .halt .abortedRun

/-- One phase-3 prompt (src/mysql.py 1133-1146). -/
def phase3Step (st : MigState) (item : Str × Str) (dec : FkDec) : StepRes :=
  match dec with
  | .addFk => .proceed { st with query := st.query ++ lc "\n\tADD " ++ item.2 ++ lc "," }
  | .skipFk => .proceed st
  | .abortFk => .halt .abortedRun

/-- Run one phase: one decision per item; an exhausted decision list models
an operator who stops answering, read as the abort option.  A halt
returns the session log as it stands. -/
def runPhase {α δ : Type} (step : MigState → α → δ → StepRes) :
    MigState → List α → List δ → PhaseRes
  | st, [], _ => .cont st
  | st, _ :: _, [] => .stop .abortedRun st.sent
  | st, item :: rest, dec :: decs =>
    match step st item dec with
    | .halt out => .stop out st.sent
    | .proceed st' => runPhase step st' rest decs

/-- `_check_query` (src/mysql.py 995-1009): display the pending statements
and let the operator execute them all, replace them by a hand-typed
query (recursing), or abort leaving the session untouched. -/
def checkQuery (qs : List Str) (decs : List ConfirmDec) (sent : List Str) :
    MigOutcome × List Str :=
  match decs with
  | [] => (.abortedRun, sent)
  | .execQ :: _ => (.completedRun, sent ++ qs)
  | .modifyQ q :: rest => checkQuery [q] rest sent
  | .abortQ :: _ => (.abortedRun, sent)

/-- The operator's scripted decisions for one table. -/
structure MigDecs where
  attrDecs : List AttrDec
  colDecs : List ColDec
  fkDecs : List FkDec
  confirmDecs : List ConfirmDec

/-- The SHOW CREATE TABLE introspection statement (src/mysql.py 1015). -/
def showQuery (tname : Str) : Str := lc "SHOW CREATE TABLE " ++ tname ++ lc ";"

/-- The three prompt phases followed by the confirm step: phase 1 over
`different_attrs`, phase 2 over the (possibly phase-1-reduced)
`different_columns`, phase 3 over the missing foreign keys, then
`_check_query` on the satellite statements plus the assembled ALTER
(trailing comma stripped, closed by newline-semicolon). -/
def migratePhases (tname : Str) (defs : List (Str × Str)) (pks : List Str)
    (env : Str → List (Str × Str)) (decs : MigDecs) (st0 : MigState)
    (da fks : List (Str × Str)) : MigOutcome × List Str :=
  match runPhase (phase1Step tname defs pks env) st0 da decs.attrDecs with
  | .stop out sent => (out, sent)
  | .cont st1 =>
    match runPhase phase2Step st1 st1.diffCols decs.colDecs with
    | .stop out sent => (out, sent)
    | .cont st2 =>
      match runPhase phase3Step st2 fks decs.fkDecs with
      | .stop out sent => (out, sent)
      | .cont st3 =>
        checkQuery (st3.queries ++ [pyRemovesuffix st3.query (lc ",") ++ lc "\n;"])
          decs.confirmDecs st3.sent

/-- Migration of one registered table (src/mysql.py 1012-1149): introspect
with SHOW CREATE TABLE, parse, diff, apply the faithful skip test of
line 1053, then run the prompt phases and the confirm step.  Returns
the outcome and the full session log for this table. -/
def migrateTable (tname : Str) (creationText : Str) (fields : List MField)
    (pks : List Str) (env : Str → List (Str × Str)) (decs : MigDecs) :
    MigOutcome × List Str :=
  match parseCreationQuery creationText with
  | Option.none => (.erroredRun, [showQuery tname])
  | some live =>
    if skipTable (diffFields live fields).1
        (diffColumns live (fields.map MField.name) (diffFields live fields).1) then
      (.skippedSync, [showQuery tname])
    else
      migratePhases tname live.definitions pks env decs
        { query := lc "ALTER TABLE " ++ tname, queries := [],
          sent := [showQuery tname],
          diffCols := diffColumns live (fields.map MField.name) (diffFields live fields).1 }
        (diffFields live fields).1 (diffFields live fields).2

/-- Introspection-only property of a session log: no statement begins with
"ALTER" — neither an assembled ALTER TABLE nor a satellite DROP KEY
(which is itself an ALTER TABLE statement) has been executed. -/
def introOnly (sent : List Str) : Prop :=
  ∀ q ∈ sent, (lc "ALTER").isPrefixOf q = false

theorem alter_not_prefix_S (l : Str) :
    (lc "ALTER").isPrefixOf ('S' :: l) = false := by
  show ('A' :: lc "LTER").isPrefixOf ('S' :: l) = false
  simp [List.isPrefixOf]

theorem show_query_not_alter (tname : Str) :
    (lc "ALTER").isPrefixOf (lc "SHOW CREATE TABLE " ++ tname ++ lc ";") = false := by
  have he : lc "SHOW CREATE TABLE " ++ tname ++ lc ";" =
      'S' :: (lc "HOW CREATE TABLE " ++ tname ++ lc ";") := rfl
  rw [he]
  exact alter_not_prefix_S _

theorem infoSchema_not_alter (tname pk : Str) :
    (lc "ALTER").isPrefixOf (infoSchemaQuery tname pk) = false := by
  have he : infoSchemaQuery tname pk =
      'S' :: (lc "ELECT TABLE_NAME, COLUMN_NAME, CONSTRAINT_NAME" ++
        lc "\nFROM INFORMATION_SCHEMA.KEY_COLUMN_USAGE" ++
        (lc "\nWHERE REFERENCED_TABLE_NAME = '" ++ tname ++ lc "'") ++
        (lc "\nAND REFERENCED_COLUMN_NAME = '" ++ pk ++ lc "'") ++ lc "\n;") := rfl
  rw [he]
  exact alter_not_prefix_S _

theorem phase1StepNew_introOnly (tname : Str) (defs : List (Str × Str)) (pks : List Str)
    (env : Str → List (Str × Str)) (st : MigState) (attr fd : Str) (dec : AttrDec)
    (st' : MigState) (hst : introOnly st.sent)
    (h : phase1StepNew tname defs pks env st attr fd dec = .proceed st') :
    introOnly st'.sent := by
  cases dec with
  | addNew pos =>
    simp only [phase1StepNew] at h
    split at h
    · split at h
      · simp only [StepRes.proceed.injEq] at h
        rw [← h]
        intro q hq
        rcases List.mem_append.mp hq with hmem | hmem
        · exact hst q hmem
        · obtain ⟨pk, -, hpk⟩ := List.mem_map.mp hmem
          rw [← hpk]
          exact infoSchema_not_alter tname pk
      · simp only [StepRes.proceed.injEq] at h
        rw [← h]
        exact hst
    · exact StepRes.noConfusion h
  | renameFrom src =>
    simp only [phase1StepNew] at h
    split at h
    · simp only [StepRes.proceed.injEq] at h
      rw [← h]
      exact hst
    · exact StepRes.noConfusion h
  | modifyCol => exact StepRes.noConfusion h
  | skipAttr =>
    simp only [phase1StepNew, StepRes.proceed.injEq] at h
    rw [← h]
    exact hst
  | abortAttr => exact StepRes.noConfusion h

theorem phase1Step_introOnly (tname : Str) (defs : List (Str × Str)) (pks : List Str)
    (env : Str → List (Str × Str)) (st : MigState) (item : Str × Str) (dec : AttrDec)
    (st' : MigState) (hst : introOnly st.sent)
    (h : phase1Step tname defs pks env st item dec = .proceed st') :
    introOnly st'.sent := by
  unfold phase1Step at h
  split at h
  · exact phase1StepNew_introOnly tname defs pks env st item.1 item.2 dec st' hst h
  · cases dec with
    | modifyCol =>
      simp only [phase1StepLive, StepRes.proceed.injEq] at h
      rw [← h]
      exact hst
    | skipAttr =>
      simp only [phase1StepLive, StepRes.proceed.injEq] at h
      rw [← h]
      exact hst
    | addNew pos => exact StepRes.noConfusion h
    | renameFrom src => exact StepRes.noConfusion h
    | abortAttr => exact StepRes.noConfusion h

theorem phase2Step_introOnly (st : MigState) (item : Str × Str) (dec : ColDec)
    (st' : MigState) (hst : introOnly st.sent)
    (h : phase2Step st item dec = .proceed st') : introOnly st'.sent := by
  cases dec with
  | renameTo nm =>
    simp only [phase2Step, StepRes.proceed.injEq] at h
    rw [← h]; exact hst
  | dropCol =>
    simp only [phase2Step, StepRes.proceed.injEq] at h
    rw [← h]; exact hst
  | skipCol =>
    simp only [phase2Step, StepRes.proceed.injEq] at h
    rw [← h]; exact hst
  | abortCol => exact StepRes.noConfusion h

theorem phase3Step_introOnly (st : MigState) (item : Str × Str) (dec : FkDec)
    (st' : MigState) (hst : introOnly st.sent)
    (h : phase3Step st item dec = .proceed st') : introOnly st'.sent := by
  cases dec with
  | addFk =>
    simp only [phase3Step, StepRes.proceed.injEq] at h
    rw [← h]; exact hst
  | skipFk =>
    simp only [phase3Step, StepRes.proceed.injEq] at h
    rw [← h]; exact hst
  | abortFk => exact StepRes.noConfusion h

theorem runPhase_introOnly {α δ : Type} (step : MigState → α → δ → StepRes)
    (hstep : ∀ st item dec st', introOnly st.sent →
      step st item dec = .proceed st' → introOnly st'.sent)
    (st : MigState) (items : List α) (decs : List δ) (hst : introOnly st.sent) :
    (∀ st', runPhase step st items decs = .cont st' → introOnly st'.sent) ∧
    (∀ out s, runPhase step st items decs = .stop out s → introOnly s) := by
  induction items generalizing st decs with
  | nil =>
    constructor
    · intro st' h
      simp only [runPhase, PhaseRes.cont.injEq] at h
      rw [← h]
      exact hst
    · intro out s h
      simp only [runPhase] at h
      exact PhaseRes.noConfusion h
  | cons item rest ih =>
    cases decs with
    | nil =>
      constructor
      · intro st' h
        simp only [runPhase] at h
        exact PhaseRes.noConfusion h
      · intro out s h
        simp only [runPhase, PhaseRes.stop.injEq] at h
        rw [← h.2]
        exact hst
    | cons dec decs' =>
      cases hs : step st item dec with
      | halt out0 =>
        constructor
        · intro st' h
          simp only [runPhase, hs] at h
          exact PhaseRes.noConfusion h
        · intro out s h
          simp only [runPhase, hs, PhaseRes.stop.injEq] at h
          rw [← h.2]
          exact hst
      | proceed st1 =>
        have h1 : introOnly st1.sent := hstep st item dec st1 hst hs
        constructor
        · intro st' h
          simp only [runPhase, hs] at h
          exact (ih st1 decs' h1).1 st' h
        · intro out s h
          simp only [runPhase, hs] at h
          exact (ih st1 decs' h1).2 out s h

theorem checkQuery_abort_introOnly (qs : List Str) (decs : List ConfirmDec)
    (sent : List Str) (hs : introOnly sent)
    (h : (checkQuery qs decs sent).1 = .abortedRun) :
    introOnly (checkQuery qs decs sent).2 := by
  induction decs generalizing qs with
  | nil => exact hs
  | cons d rest ih =>
    cases d with
    | execQ => simp [checkQuery] at h
    | modifyQ q => exact ih [q] (by simpa [checkQuery] using h)
    | abortQ => simpa [checkQuery] using hs

/-- Helper shape: a migration result that was aborted carries an
introspection-only log. -/
def abortSafe (r : MigOutcome × List Str) : Prop :=
  r.1 = .abortedRun → introOnly r.2

theorem migratePhases_abortSafe (tname : Str) (defs : List (Str × Str)) (pks : List Str)
    (env : Str → List (Str × Str)) (decs : MigDecs) (st0 : MigState)
    (da fks : List (Str × Str)) (hst0 : introOnly st0.sent) :
    abortSafe (migratePhases tname defs pks env decs st0 da fks) := by
  have hph1 := runPhase_introOnly (phase1Step tname defs pks env)
    (fun st item dec st' hst hstp =>
      phase1Step_introOnly tname defs pks env st item dec st' hst hstp)
    st0 da decs.attrDecs hst0
  unfold migratePhases abortSafe
  split
  · rename_i out sent hstop
    intro h
    exact hph1.2 out sent hstop
  · rename_i st1 hcont1
    have hst1 := hph1.1 st1 hcont1
    have hph2 := runPhase_introOnly phase2Step phase2Step_introOnly st1
      st1.diffCols decs.colDecs hst1
    split
    · rename_i out sent hstop
      intro h
      exact hph2.2 out sent hstop
    · rename_i st2 hcont2
      have hst2 := hph2.1 st2 hcont2
      have hph3 := runPhase_introOnly phase3Step phase3Step_introOnly st2
        fks decs.fkDecs hst2
      split
      · rename_i out sent hstop
        intro h
        exact hph3.2 out sent hstop
      · rename_i st3 hcont3
        have hst3 := hph3.1 st3 hcont3
        intro h
        exact checkQuery_abort_introOnly _ decs.confirmDecs st3.sent hst3 h

theorem migrateTable_abortSafe (tname creationText : Str) (fields : List MField)
    (pks : List Str) (env : Str → List (Str × Str)) (decs : MigDecs) :
    abortSafe (migrateTable tname creationText fields pks env decs) := by
  have hsent0 : introOnly [showQuery tname] := by
    intro q hq
    rcases List.mem_singleton.mp hq with rfl
    exact show_query_not_alter tname
  unfold migrateTable
  split
  · intro h
    exact MigOutcome.noConfusion h
  · rename_i live hlive
    split
    · intro h
      exact MigOutcome.noConfusion h
    · exact migratePhases_abortSafe tname live.definitions pks env decs _ _ _ hsent0

/-- C9: whenever the migration of a table ends in an abort — an abort
option chosen at any phase prompt or at the confirm step, including an
operator who stops answering — every statement this table's run has
sent to the session is introspection: nothing starting with ALTER
(neither the assembled ALTER TABLE nor a satellite DROP KEY, which is
itself an ALTER TABLE text) was executed, so the schema is exactly as
it was.  Statements reach the session only through the confirmed
execute path. -/
theorem c9_abort_sends_no_ddl (tname creationText : Str) (fields : List MField)
    (pks : List Str) (env : Str → List (Str × Str)) (decs : MigDecs)
    (h : (migrateTable tname creationText fields pks env decs).1 = .abortedRun) :
    ∀ q ∈ (migrateTable tname creationText fields pks env decs).2,
      (lc "ALTER").isPrefixOf q = false :=
  migrateTable_abortSafe tname creationText fields pks env decs h

/-- Live schema text for the C9 witness: column `legacy` is live but
undeclared, while the declared `email` is missing live, so the skip
test passes and phase 1 prompts for `email`. -/
def c9DemoText : Str :=
  lc "CREATE TABLE `User` (\n  `id` int unsigned NOT NULL,\n  `legacy` varchar(20) DEFAULT NULL,\n  PRIMARY KEY (`id`)\n)"

def c9DemoFields : List MField :=
  [⟨lc "id", lc "int unsigned NOT NULL", false⟩,
   ⟨lc "email", lc "varchar(50) DEFAULT NULL", false⟩]

def c9DemoDecs : MigDecs :=
  { attrDecs := [.abortAttr], colDecs := [], fkDecs := [], confirmDecs := [] }

/-- C9 witness: a run that aborts at the first phase-1 prompt has sent only
the SHOW CREATE TABLE introspection, on which the theorem's conclusion
is evaluated. -/
theorem c9_abort_sends_no_ddl_witness :
    (lc "ALTER").isPrefixOf (lc "SHOW CREATE TABLE User;") = false :=
  c9_abort_sends_no_ddl (lc "User") c9DemoText c9DemoFields [lc "id"]
    (fun _ => []) c9DemoDecs (by decide) (lc "SHOW CREATE TABLE User;") (by decide)

end SQLobj
